/-
Verification of the Texas Hold'em table engine (src/holdem/table.go) against
its natural-language specification.

A shallow embedding: the Go table state becomes an explicit Lean structure,
each mutating method becomes a function from state to state.  Go's `error`
results are modelled with `Option HoldemError` (none = nil); runtime panics
(nil dereference, out-of-range index, division by zero, nontermination of an
unbounded loop) are modelled by an outer `Option` being `none`.  Go maps keyed
by player id are modelled as association lists; Go integers as `Int`
(indices as `Nat`).  External collaborators that are referenced by table.go
but are not part of the source under verification (the standard-deck source,
the PRNG, the pot allocator `CreatePots`, the hand evaluator
`DeterminateWinner`) are modelled from the spec and marked as such.
-/
import Mathlib

namespace Holdem

/-- A card has a rank and a suit (spec: immutable value type). -/
structure Card where
  rank : Nat
  suit : Nat
deriving DecidableEq

/-- A hand is exactly two private cards (Go: `Hand{[2]Card{...}}`). -/
structure Hand where
  c1 : Card
  c2 : Card
deriving DecidableEq

/-- The player capability set consumed by the core (Go `IPlayer`):
identifier, balance, private hand, fold flag, ready ("acted") flag and
the bet committed this round. -/
structure Player where
  id : String
  balance : Int
  hand : Option Hand := none
  fold : Bool := false
  ready : Bool := false
  lastBet : Int := 0
deriving DecidableEq

/-- A pot: an amount and the applicant identifiers eligible to win it
(Go `Pot{Amount, Applicants}`). -/
structure Pot where
  amount : Int
  applicants : List String
deriving DecidableEq

/-- The error taxonomy of table.go (the `Err...` values). -/
inductive HoldemError where
  | maxPlayers
  | gameStarted
  | gameNotStarted
  | notEnoughCards
  | notYourTurn
  | playerIsFold
  | cantCheck
  | cantRaise
  | notEnoughMoney
  | unexpectedAction
  | playerNotFound
deriving DecidableEq

/-- Go `TableConfig`.  The two `time` fields (`BlindIncreaseTime`,
`LastBlindIncrease`) are never read by any operation in table.go and model
real time, so they are omitted. -/
structure TableConfig where
  maxPlayers : Int
  minPlayers : Int
  enterAfterStart : Bool
  bankAmount : Int
deriving DecidableEq

/-- Go `TableMeta`: the whole mutable game state.  `players` and `query`
are Go maps keyed by player id, modelled as association lists. -/
structure TableMeta where
  smallBlind : Int
  ante : Int
  dealerIndex : Nat
  playerTurnInd : Nat
  currentBet : Int
  communityCards : List Card
  playersOrder : List String
  players : List (String × Player)
  query : List (String × Player)
  pots : List Pot
  deck : List Card
  currentRound : Int
  gameStarted : Bool
  seed : Int
deriving DecidableEq

/-- Lookup in a Go map modelled as an association list (first match). -/
def lookupP (ps : List (String × Player)) (k : String) : Option Player :=
  match ps with
  | [] => none
  | kv :: rest => if kv.1 = k then some kv.2 else lookupP rest k

/-- Mutating the player stored under a key (Go: calling a setter on
`Players[k]`); keys are unchanged. -/
def updateP (ps : List (String × Player)) (k : String) (f : Player → Player) :
    List (String × Player) :=
  ps.map (fun kv => if kv.1 = k then (kv.1, f kv.2) else kv)

/-- Go map assignment `m[k] = v`: replace if present, otherwise append. -/
def insertP (ps : List (String × Player)) (k : String) (v : Player) :
    List (String × Player) :=
  if (lookupP ps k).isSome then updateP ps k (fun _ => v) else ps ++ [(k, v)]

/-- Go map `delete(m, k)`. -/
def removeKey (ps : List (String × Player)) (k : String) :
    List (String × Player) :=
  ps.filter (fun kv => kv.1 ≠ k)

/-- Modelled from the spec: `GetStandardDeck` comes from the Standard Deck
Source collaborator (not under src/); per the spec it returns an ordered
sequence of 52 unique cards. -/
def GetStandardDeck : List Card :=
  (List.range 52).map (fun i => { rank := 2 + i % 13, suit := i / 13 })

/-- Modelled from the spec: one step of the external pseudo-random source
(`math/rand`, not under src/); per the spec only its seeding contract
matters — deterministic and reproducible for a given seed. -/
def lcgNext (s : Nat) : Nat :=
  (s * 75 + 74) % 65537

/-- Modelled from the spec: the seeded shuffle performed by the external
PRNG (`rand.Shuffle`).  A deterministic pick-and-remove permutation driven
by the evolving seed; the fuel equals the list length, so the whole list is
permuted. -/
def shuffleGo : Nat → Nat → List Card → List Card
  | 0, _, l => l
  | fuel + 1, s, l =>
    match l with
    | [] => []
    | x :: xs =>
      let i := s % (x :: xs).length
      (x :: xs).getD i x :: shuffleGo fuel (lcgNext s) ((x :: xs).eraseIdx i)

/-- Modelled from the spec: deterministic seeded permutation of a deck. -/
def goShuffle (seed : Int) (l : List Card) : List Card :=
  shuffleGo l.length seed.natAbs l

/-- Modelled from the spec: advancing the reshuffle seed draws a new
non-zero pseudo-random value from the external PRNG, derived
deterministically from the prior seed. -/
def goNextSeed (s : Int) : Int :=
  let n := lcgNext s.natAbs
  if n = 0 then 1 else (n : Int)

/-- Modelled from the spec: `DeterminateWinner` is the external
hand-evaluation collaborator (referenced by `PayMoney` in table.go, not
under src/).  Contract: it returns a non-empty winner set whenever at least
one candidate is supplied, and ties produce multiple winners.  Modelled as
declaring every supplied candidate a tied winner. -/
def DeterminateWinner (communityCards : List Card)
    (candidates : List (String × Player)) : List String :=
  let _ := communityCards
  candidates.map (·.1)

/-- Smallest element of a list of integers, if any. -/
def minList (xs : List Int) : Option Int :=
  xs.foldl
    (fun acc x =>
      match acc with
      | none => some x
      | some y => some (min y x))
    none

/-- One layer of side-pot construction: contributors are `(id, remaining
contribution, fold flag)`; each pot is capped at the smallest positive
remaining contribution; excess carries into the next pot. -/
def buildPots (fuel : Nat) (contribs : List (String × Int × Bool)) : List Pot :=
  match fuel with
  | 0 => []
  | fuel + 1 =>
    let pos := contribs.filter (fun c => c.2.1 > 0)
    match minList (pos.map (fun c => c.2.1)) with
    | none => []
    | some cap =>
      { amount := cap * pos.length,
        applicants := (pos.filter (fun c => !c.2.2)).map (·.1) } ::
        buildPots fuel (pos.map (fun c => (c.1, c.2.1 - cap, c.2.2)))

/-- Modelled from the spec: the pot-allocation collaborator `CreatePots`
(referenced by `createPots` in table.go, not under src/).  Per the spec it
folds the round's wagers (each player's committed bet) into pots: each pot
is capped at the smallest positive remaining contribution among the
contributors, richer players' excess carries into a subsequent side pot,
and a pot's applicants are the non-folded contributors who reached it. -/
def CreatePots (players : List (String × Player)) : List Pot :=
  buildPots (players.length + 1)
    (players.map (fun kv => (kv.1, kv.2.lastBet, kv.2.fold)))

/-- Go `refreshDeck`: reset the deck to the standard 52 cards, then shuffle
with a generator built from the seed.  When the seed is zero the generator
variable stays nil and `r.Shuffle` dereferences it — a panic, modelled as
`none`. -/
def refreshDeck (m : TableMeta) : Option TableMeta :=
  let m1 := { m with deck := GetStandardDeck }
  if m.seed ≠ 0 then some { m1 with deck := goShuffle m.seed m1.deck } else none

/-- Go `addPlayerInGame`: map assignment `Players[p.GetId()] = p`. -/
def addPlayerInGame (ps : List (String × Player)) (p : Player) :
    List (String × Player) :=
  insertP ps p.id p

/-- Go `addPlayerInQuery`: map assignment `Query[p.GetId()] = p`. -/
def addPlayerInQuery (ps : List (String × Player)) (p : Player) :
    List (String × Player) :=
  insertP ps p.id p

/-- Go `AddPlayer`: phase check, capacity check (`MaxPlayers <=
len(Players)+len(Query)+1`), then seat immediately or queue. -/
def AddPlayer (cfg : TableConfig) (m : TableMeta) (p : Player) :
    Option HoldemError × TableMeta :=
  if m.gameStarted && !cfg.enterAfterStart then (some .gameStarted, m)
  else if cfg.maxPlayers ≤ (m.players.length : Int) + (m.query.length : Int) + 1 then
    (some .maxPlayers, m)
  else if m.gameStarted then
    (none, { m with query := addPlayerInQuery m.query p })
  else
    (none, { m with players := addPlayerInGame m.players p,
                    playersOrder := m.playersOrder ++ [p.id] })

/-- Go `enterPlayersFromQuery`: copy every queued entry into `Players` and
append its id to `PlayersOrder`.  The source never deletes the entries from
`Query`. -/
def enterPlayersFromQuery (m : TableMeta) : TableMeta :=
  m.query.foldl
    (fun acc kv =>
      { acc with players := insertP acc.players kv.1 kv.2,
                 playersOrder := acc.playersOrder ++ [kv.1] })
    m

/-- Go `RemovePlayer`: error if the id is in neither map; remove from the
queue if queued, otherwise from the seated map and from `PlayersOrder`
(Go `slices.Index` + reslice; an absent id there would index at -1 and
panic, modelled as `none`). -/
def RemovePlayer (m : TableMeta) (playerId : String) :
    Option (Option HoldemError × TableMeta) :=
  let ok1 := (lookupP m.players playerId).isSome
  let ok2 := (lookupP m.query playerId).isSome
  if !(ok1 || ok2) then some (some .playerNotFound, m)
  else if ok2 then some (none, { m with query := removeKey m.query playerId })
  else
    match m.playersOrder.findIdx? (fun x => x == playerId) with
    | none => none
    | some ind =>
      some (none, { m with players := removeKey m.players playerId,
                           playersOrder := m.playersOrder.eraseIdx ind })

/-- Removing a batch of players, ignoring each `RemovePlayer`'s error as the
source does (a panic still propagates). -/
def removeAll (m : TableMeta) : List String → Option TableMeta
  | [] => some m
  | pid :: rest =>
    (RemovePlayer m pid).bind (fun r => removeAll r.2 rest)

/-- Go `betAnte`: players whose balance is below the ante are collected and
removed, then a pot of `Ante * len(Players)` with the current seating order
as applicants is appended.  No balance is ever debited here. -/
def betAnte (m : TableMeta) : Option (Option HoldemError × TableMeta) :=
  if !m.gameStarted then some (some .gameNotStarted, m)
  else
    let toRemove := (m.players.filter (fun kv => kv.2.balance < m.ante)).map (·.1)
    (removeAll m toRemove).map (fun m1 =>
      (none, { m1 with
                pots := m1.pots ++
                  [{ amount := m1.ante * (m1.players.length : Int),
                     applicants := m1.playersOrder }] }))

/-- Go `drawCard`: returns `(cards, error)` and the updated table.  When
fewer than `n` cards remain it returns an empty slice, the error, and an
unchanged deck. -/
def drawCard (m : TableMeta) (n : Nat) :
    (List Card × Option HoldemError) × TableMeta :=
  if m.deck.length < n then (([], some .notEnoughCards), m)
  else ((m.deck.take n, none), { m with deck := m.deck.drop n })

/-- Go `betBlinds`: with more than two seats the blinds sit one and two
seats after the dealer; heads-up the dealer posts the small blind and the
other seat the big blind.  Each blind is clamped to the player's balance;
`CurrentBet` becomes the larger posted blind. -/
def betBlinds (m : TableMeta) : Option (Option HoldemError × TableMeta) :=
  if !m.gameStarted then some (some .gameNotStarted, m)
  else if m.playersOrder.length = 0 then none
  else
    let pair : Option (String × String) :=
      if m.playersOrder.length > 2 then
        (m.playersOrder[(m.dealerIndex + 1) % m.playersOrder.length]?).bind
          (fun s =>
            (m.playersOrder[(m.dealerIndex + 2) % m.playersOrder.length]?).map
              (fun b => (s, b)))
      else
        (m.playersOrder[m.dealerIndex]?).bind
          (fun s =>
            (m.playersOrder[(m.dealerIndex + 1) % m.playersOrder.length]?).map
              (fun b => (s, b)))
    pair.bind (fun sb =>
      (lookupP m.players sb.1).bind (fun sp =>
        let sbBet := min m.smallBlind sp.balance
        let m1 := { m with players := (updateP m.players sb.1
          (fun q => { q with balance := q.balance - sbBet, lastBet := sbBet })) }
        (lookupP m1.players sb.2).bind (fun bp =>
          let bbBet := min (m.smallBlind * 2) bp.balance
          let m2 := { m1 with players := (updateP m1.players sb.2
            (fun q => { q with balance := q.balance - bbBet, lastBet := bbBet })) }
          some (none, { m2 with currentBet := max bbBet sbBet }))))

/-- Go `getNextPlayer`'s scan: try offsets `i` in order, returning the first
index whose player is neither folded nor ready. -/
def findNextIdx (m : TableMeta) : List Nat → Option (Option Nat)
  | [] => some none
  | i :: rest =>
    (m.playersOrder[(m.playerTurnInd + i) % m.playersOrder.length]?).bind
      (fun nextId =>
        (lookupP m.players nextId).bind (fun p =>
          if !p.fold && !p.ready then
            some (some ((m.playerTurnInd + i) % m.playersOrder.length))
          else findNextIdx m rest))

/-- Go `getNextPlayer`: scan seats after the current turn index, skipping
folded or ready players; if none matches the turn index is left alone. -/
def getNextPlayer (m : TableMeta) : Option TableMeta :=
  (findNextIdx m ((List.range m.playersOrder.length).drop 1)).map
    (fun r =>
      match r with
      | some idx => { m with playerTurnInd := idx }
      | none => m)

/-- Go `choiceDealer`: advance the dealer seat by one, wrapping. -/
def choiceDealer (m : TableMeta) : Option (Option HoldemError × TableMeta) :=
  if !m.gameStarted then some (some .gameNotStarted, m)
  else if m.playersOrder.length = 0 then none
  else some (none,
    { m with dealerIndex := (m.dealerIndex + 1) % m.playersOrder.length })

/-- Go `choiceFirstMovePlayer`: at pre-flop the turn goes three seats after
the dealer, at any later round one seat after. -/
def choiceFirstMovePlayer (m : TableMeta) :
    Option (Option HoldemError × TableMeta) :=
  if !m.gameStarted then some (some .gameNotStarted, m)
  else if m.playersOrder.length = 0 then none
  else if m.currentRound == 0 then
    some (none,
      { m with playerTurnInd := (m.dealerIndex + 3) % m.playersOrder.length })
  else
    some (none,
      { m with playerTurnInd := (m.dealerIndex + 1) % m.playersOrder.length })

/-- Go `checkReady`: false when the game has not started; otherwise false
as soon as some player is neither folded nor ready, or has a zero
balance. -/
def checkReady (m : TableMeta) : Bool :=
  if !m.gameStarted then false
  else m.players.all
    (fun kv => !((!kv.2.fold && !kv.2.ready) || kv.2.balance == 0))

/-- Go `refreshPlayers`: per-player round reset — clear the fold flag only
when `fold` is passed, always clear `lastBet` and `ready`. -/
def refreshPlayers (players : List (String × Player)) (fold : Bool) :
    List (String × Player) :=
  players.map (fun kv =>
    (kv.1, { kv.2 with
              fold := if fold then false else kv.2.fold,
              lastBet := 0, ready := false }))

/-- The per-player body of Go `resetPlayersStatus`: clear `ready` unless the
player has folded. -/
def resetOne (v : Player) : Player :=
  if !v.fold then { v with ready := false } else v

/-- Go `resetPlayersStatus`: clear every non-folded player's ready flag. -/
def resetPlayersStatus (m : TableMeta) : Option HoldemError × TableMeta :=
  if !m.gameStarted then (some .gameNotStarted, m)
  else (none, { m with players := m.players.map (fun kv => (kv.1, resetOne kv.2)) })

/-- Go `updateSeed`: when the seed is non-zero, replace it by the next
non-zero pseudo-random value drawn from a generator seeded with it. -/
def updateSeed (m : TableMeta) : TableMeta :=
  if m.seed ≠ 0 then { m with seed := goNextSeed m.seed } else m

/-- Go `handleCheck`: started-game and fold guards, then `CantCheck` when
the table bet is non-zero, otherwise mark the player ready. -/
def handleCheck (m : TableMeta) (pid : String) :
    Option (Option HoldemError × TableMeta) :=
  if !m.gameStarted then some (some .gameNotStarted, m)
  else
    (lookupP m.players pid).bind (fun p =>
      if p.fold then some (some .playerIsFold, m)
      else if m.currentBet ≠ 0 then some (some .cantCheck, m)
      else some (none,
        { m with players := (updateP m.players pid
            (fun q => { q with ready := true })) }))

/-- Go `handleFold`: mark the player ready and folded. -/
def handleFold (m : TableMeta) (pid : String) :
    Option (Option HoldemError × TableMeta) :=
  if !m.gameStarted then some (some .gameNotStarted, m)
  else
    (lookupP m.players pid).bind (fun _ =>
      some (none,
        { m with players := (updateP m.players pid
            (fun q => { q with ready := true, fold := true })) }))

/-- Go `handleRaise`: validity checks (`amount > CurrentBet*2`,
`amount > lastBet`, `amount > 0`, delta within balance), then reset every
non-folded player's ready flag, set the raiser's last bet, debit the delta,
mark the raiser ready and update the table bet. -/
def handleRaise (m : TableMeta) (pid : String) (amount : Int) :
    Option (Option HoldemError × TableMeta) :=
  if !m.gameStarted then some (some .gameNotStarted, m)
  else
    (lookupP m.players pid).bind (fun p =>
      if p.fold then some (some .playerIsFold, m)
      else if ¬(amount > m.currentBet * 2 ∧ amount > p.lastBet ∧ amount > 0) then
        some (some .cantRaise, m)
      else if amount - p.lastBet > p.balance then some (some .notEnoughMoney, m)
      else
        let m1 := (resetPlayersStatus m).2
        let m2 := { m1 with players := (updateP m1.players pid
          (fun q => { q with lastBet := amount })) }
        let m3 := { m2 with players := (updateP m2.players pid
          (fun q => { q with balance := q.balance - (amount - p.lastBet) })) }
        let m4 := { m3 with players := (updateP m3.players pid
          (fun q => { q with ready := true })) }
        some (none, { m4 with currentBet := amount }))

/-- Go `handleCall`: behaves as a check when the table bet is zero;
otherwise debit `min(CurrentBet - lastBet, balance)`, mark ready, and set
the last bet to the full table bet — or to the clamped amount when the
balance has reached zero. -/
def handleCall (m : TableMeta) (pid : String) :
    Option (Option HoldemError × TableMeta) :=
  if !m.gameStarted then some (some .gameNotStarted, m)
  else if m.currentBet == 0 then handleCheck m pid
  else
    (lookupP m.players pid).bind (fun p =>
      if p.fold then some (some .playerIsFold, m)
      else
        let needToBet := m.currentBet - p.lastBet
        let possibleBet := min needToBet p.balance
        let m1 := { m with players := (updateP m.players pid
          (fun q => { q with balance := q.balance - possibleBet, ready := true })) }
        (lookupP m1.players pid).bind (fun p1 =>
          if p1.balance > 0 then
            some (none, { m1 with players := (updateP m1.players pid
              (fun q => { q with lastBet := m.currentBet })) })
          else
            some (none, { m1 with players := (updateP m1.players pid
              (fun q => { q with lastBet := possibleBet })) })))

/-- The applicant map `PayMoney` builds for one pot: the pot's applicants in
order, each looked up in the seated map, with folded players skipped.  A
missing id would be a nil interface whose method call panics. -/
def settleApplicants (players : List (String × Player)) :
    List String → Option (List (String × Player))
  | [] => some []
  | k :: rest =>
    (lookupP players k).bind (fun p =>
      (settleApplicants players rest).map (fun tail =>
        if p.fold then tail else (k, p) :: tail))

/-- `PayMoney`'s winner-crediting loop: each winner's balance grows by the
per-winner amount; a missing id panics. -/
def creditWinners (m : TableMeta) (winAmount : Int) :
    List String → Option TableMeta
  | [] => some m
  | w :: rest =>
    (lookupP m.players w).bind (fun _ =>
      creditWinners
        { m with players := (updateP m.players w
            (fun q => { q with balance := q.balance + winAmount })) }
        winAmount rest)

/-- `PayMoney`'s remainder loop: walk seats after the dealer (index taken
modulo `len(Players)`), skipping folded seats and non-winners, handing out
one chip per eligible seat until the remainder is exhausted.  Running out of
fuel models the Go loop never terminating; a bad index or missing id models
a panic. -/
def distributeRemainder (m : TableMeta) (winners : List String) (counter : Int)
    (i : Nat) : Nat → Option TableMeta
  | 0 => none
  | fuel + 1 =>
    if counter ≤ 0 then some m
    else if m.players.length = 0 then none
    else
      (m.playersOrder[(m.dealerIndex + i) % m.players.length]?).bind
        (fun target =>
          (lookupP m.players target).bind (fun tp =>
            if tp.fold || !(winners.contains tp.id) then
              distributeRemainder m winners counter (i + 1) fuel
            else
              distributeRemainder
                { m with players := (updateP m.players target
                    (fun q => { q with balance := q.balance + 1 })) }
                winners (counter - 1) (i + 1) fuel))

/-- Settling a single pot: filter folded applicants, ask the evaluator for
the winners, split the amount by integer division (an empty winner set
divides by zero — a panic), credit each winner, then distribute any
remainder one chip at a time. -/
def payPot (m : TableMeta) (pot : Pot) : Option TableMeta :=
  (settleApplicants m.players pot.applicants).bind (fun apps =>
    let winners := DeterminateWinner m.communityCards apps
    if winners.length = 0 then none
    else
      let winAmount := pot.amount / (winners.length : Int)
      (creditWinners m winAmount winners).bind (fun m1 =>
        if winAmount * (winners.length : Int) = pot.amount then some m1
        else
          distributeRemainder m1 winners
            (pot.amount - winAmount * (winners.length : Int)) 1
            (((pot.amount - winAmount * (winners.length : Int)).toNat + 1) *
              (m1.playersOrder.length + 1) + 1)))

/-- Go `PayMoney`: settle every pot in order. -/
def PayMoney (m : TableMeta) : Option TableMeta :=
  m.pots.foldl (fun acc pot => acc.bind (fun st => payPot st pot)) (some m)

/-- Go `createPots`: append the allocator's pots for the current
contributions to the table's pot list. -/
def createPots (m : TableMeta) : Option HoldemError × TableMeta :=
  if !m.gameStarted then (some .gameNotStarted, m)
  else (none, { m with pots := m.pots ++ CreatePots m.players })

/-- The prefix every `NewRound` transition runs before its round-specific
branch: rebuild pots, advance the round index, zero the table bet, and
reset each player's per-round state — clearing fold flags exactly when the
new round index is 4. -/
def newRoundPre (m : TableMeta) : TableMeta :=
  let m1 := (createPots m).2
  let m2 := { m1 with currentRound := m1.currentRound + 1, currentBet := 0 }
  { m2 with players := refreshPlayers m2.players (m2.currentRound == 4) }

/-- The dealing loop of round 0: two cards per seat in seating order. -/
def dealHands (m : TableMeta) : List String → Option TableMeta
  | [] => some m
  | k :: rest =>
    let r := drawCard m 2
    (r.1.1[0]?).bind (fun c0 =>
      (r.1.1[1]?).bind (fun c1 =>
        (lookupP r.2.players k).bind (fun _ =>
          dealHands
            { r.2 with players := (updateP r.2.players k
                (fun q => { q with hand := some ⟨c0, c1⟩ })) }
            rest)))

/-- The round-specific branch of Go `NewRound`'s switch. -/
def roundBody (m : TableMeta) : Option TableMeta :=
  if m.currentRound == 0 then
    let ma := enterPlayersFromQuery m
    (betAnte ma).bind (fun rb =>
      (dealHands rb.2 rb.2.playersOrder).bind (fun mc =>
        (choiceDealer mc).bind (fun rd =>
          (betBlinds rd.2).map (·.2))))
  else if m.currentRound == 1 then
    let r := drawCard m 3
    let m1 : TableMeta := { r.2 with communityCards := r.1.1 }
    if m1.playersOrder.length = 0 then none
    else some { m1 with
      playerTurnInd := (m1.dealerIndex + 1) % m1.playersOrder.length }
  else if m.currentRound == 2 || m.currentRound == 3 then
    let r := drawCard m 1
    some { r.2 with communityCards := r.2.communityCards ++ r.1.1 }
  else if m.currentRound == 4 then
    (PayMoney m).map (fun m1 =>
      let m2 := updateSeed m1
      { m2 with gameStarted := false, currentRound := -1, pots := [] })
  else some m

/-- Go `NewRound`: guard, common prefix, round branch, then
`choiceFirstMovePlayer` (whose own error is discarded). -/
def NewRound (m : TableMeta) : Option (Option HoldemError × TableMeta) :=
  if !m.gameStarted then some (some .gameNotStarted, m)
  else
    (roundBody (newRoundPre m)).bind (fun m4 =>
      (choiceFirstMovePlayer m4).map (fun r => (none, r.2)))

/-- Go `StartGame`: error when already started; otherwise set the started
flag, reset the round index, reshuffle the deck and enter round 0.
`NewRound`'s return value is discarded. -/
def StartGame (m : TableMeta) : Option (Option HoldemError × TableMeta) :=
  if m.gameStarted then some (some .gameStarted, m)
  else
    (refreshDeck { m with gameStarted := true, currentRound := -1 }).bind
      (fun m2 => (NewRound m2).map (fun r => (none, r.2)))

/-- The tail of Go `MakeMove` after the action handler returned (and its
error was discarded): mark the mover ready, advance the turn, and either
start a new round or notify the next actor (notification itself indexes
`PlayersOrder`). -/
def afterMove (m : TableMeta) (pid : String) :
    Option (Option HoldemError × TableMeta) :=
  (lookupP m.players pid).bind (fun _ =>
    let m1 := { m with players := (updateP m.players pid
      (fun q => { q with ready := true })) }
    (getNextPlayer m1).bind (fun m2 =>
      if checkReady m2 then (NewRound m2).map (fun r => (none, r.2))
      else (m2.playersOrder[m2.playerTurnInd]?).map (fun _ => (none, m2))))

/-- Go `MakeMove`: phase, turn and fold guards, dispatch on the action
string (the handler's returned error is discarded for the four known
actions), then the common tail.  Unknown actions fail. -/
def MakeMove (m : TableMeta) (playerId action : String) (amount : Int) :
    Option (Option HoldemError × TableMeta) :=
  if !m.gameStarted then some (some .gameNotStarted, m)
  else
    (m.playersOrder[m.playerTurnInd]?).bind (fun turnId =>
      if turnId ≠ playerId then some (some .notYourTurn, m)
      else
        (lookupP m.players playerId).bind (fun p =>
          if p.fold then some (some .playerIsFold, m)
          else if action = "check" then
            (handleCheck m playerId).bind (fun r => afterMove r.2 playerId)
          else if action = "raise" then
            (handleRaise m playerId amount).bind (fun r => afterMove r.2 playerId)
          else if action = "call" then
            (handleCall m playerId).bind (fun r => afterMove r.2 playerId)
          else if action = "fold" then
            (handleFold m playerId).bind (fun r => afterMove r.2 playerId)
          else some (some .unexpectedAction, m)))

/-- Sum of the seated players' balances. -/
def sumBalances (ps : List (String × Player)) : Int :=
  ps.foldl (fun a kv => a + kv.2.balance) 0

/-- Sum of the seated players' committed bets this round. -/
def sumLastBets (ps : List (String × Player)) : Int :=
  ps.foldl (fun a kv => a + kv.2.lastBet) 0

/-- Sum of all pot amounts. -/
def sumPots (pots : List Pot) : Int :=
  pots.foldl (fun a p => a + p.amount) 0

/-- Balances plus pots: the quantity the chip-conservation property tracks. -/
def totalChips (m : TableMeta) : Int :=
  sumBalances m.players + sumPots m.pots

/-- A table state with no hand artifacts, used as the base of the concrete
scenarios. -/
def baseMeta : TableMeta :=
  { smallBlind := 5, ante := 0, dealerIndex := 0, playerTurnInd := 0,
    currentBet := 0, communityCards := [], playersOrder := [],
    players := [], query := [], pots := [], deck := [],
    currentRound := -1, gameStarted := false, seed := 1 }

/-- Two seated players of balance 100, mid-hand, ante 10, game started. -/
def c1State : TableMeta :=
  { baseMeta with
      ante := 10, gameStarted := true, currentRound := 0,
      playersOrder := ["a", "b"],
      players := [("a", { id := "a", balance := 100 }),
                  ("b", { id := "b", balance := 100 })] }

/-- End of the river betting round: player "b" folded earlier in the hand,
both players are ready, and one pot of 30 with both as applicants exists. -/
def c2State : TableMeta :=
  { baseMeta with
      gameStarted := true, currentRound := 3, seed := 9,
      playersOrder := ["a", "b"],
      players := [("a", { id := "a", balance := 100, ready := true }),
                  ("b", { id := "b", balance := 100, fold := true,
                          ready := true })],
      pots := [{ amount := 30, applicants := ["a", "b"] }] }

/-- A started game where every non-folded player is ready but player "b" is
all-in (balance zero). -/
def c3State : TableMeta :=
  { baseMeta with
      gameStarted := true, currentRound := 1,
      playersOrder := ["a", "b"],
      players := [("a", { id := "a", balance := 90, ready := true }),
                  ("b", { id := "b", balance := 0, ready := true })] }

/-- A started game with a non-zero table bet where it is player "a"'s
turn and nobody has folded. -/
def c4State : TableMeta :=
  { baseMeta with
      gameStarted := true, currentRound := 1, currentBet := 10,
      playersOrder := ["a", "b"],
      players := [("a", { id := "a", balance := 100 }),
                  ("b", { id := "b", balance := 100 })] }

/-- The heads-up scenario of the spec: two players with balance 100, small
blind 5, ante 0, a fixed non-zero seed, game not yet started. -/
def c5Init : TableMeta :=
  { baseMeta with
      seed := 42,
      playersOrder := ["a", "b"],
      players := [("a", { id := "a", balance := 100 }),
                  ("b", { id := "b", balance := 100 })] }

/-- The table right after `StartGame` in the heads-up scenario. -/
def c5m1 : TableMeta :=
  ((StartGame c5Init).map (·.2)).getD c5Init

/-- The table after the big-blind player "a" (the actual first to act)
calls. -/
def c5m2 : TableMeta :=
  ((MakeMove c5m1 "a" "call" 0).map (·.2)).getD c5m1

/-- A two-seat table configuration. -/
def c6cfg : TableConfig :=
  { maxPlayers := 2, minPlayers := 2, enterAfterStart := false,
    bankAmount := 0 }

/-- One seated player, nothing queued, no hand running. -/
def c6State : TableMeta :=
  { baseMeta with
      playersOrder := ["a"],
      players := [("a", { id := "a", balance := 100 })] }

/-- A hand about to begin (round still -1) with one seated player and one
player waiting in the entry queue. -/
def c7Start : TableMeta :=
  { baseMeta with
      gameStarted := true, seed := 9, deck := GetStandardDeck,
      playersOrder := ["a"],
      players := [("a", { id := "a", balance := 100 })],
      query := [("q", { id := "q", balance := 50 })] }

/-- The table after the first hand's round 0 promoted the queued player. -/
def c7m1 : TableMeta :=
  ((NewRound c7Start).map (·.2)).getD c7Start

/-- A started game with table bet 10 where "a" (last bet 0, balance 100)
faces ready opponent "b"; used to witness the raise postconditions. -/
def w8State : TableMeta :=
  { baseMeta with
      gameStarted := true, currentRound := 0, currentBet := 10,
      playersOrder := ["a", "b"],
      players := [("a", { id := "a", balance := 100 }),
                  ("b", { id := "b", balance := 90, ready := true,
                          lastBet := 10 })] }

theorem lookupP_map (ps : List (String × Player)) (h : Player → Player)
    (k : String) :
    lookupP (ps.map (fun kv => (kv.1, h kv.2))) k = (lookupP ps k).map h := by
  induction ps with
  | nil => rfl
  | cons kv rest ih =>
    by_cases hk : kv.1 = k <;> simp [lookupP, hk, ih]

theorem lookupP_updateP_self (ps : List (String × Player)) (k : String)
    (f : Player → Player) :
    lookupP (updateP ps k f) k = (lookupP ps k).map f := by
  induction ps with
  | nil => rfl
  | cons kv rest ih =>
    by_cases hk : kv.1 = k
    · simp only [updateP, List.map_cons, if_pos hk, lookupP, hk, if_true]
      simp
    · simp only [updateP, List.map_cons, if_neg hk, lookupP, hk, if_false]
      exact ih

theorem lookupP_updateP_ne (ps : List (String × Player)) (k j : String)
    (f : Player → Player) (h : j ≠ k) :
    lookupP (updateP ps k f) j = lookupP ps j := by
  induction ps with
  | nil => rfl
  | cons kv rest ih =>
    by_cases hk : kv.1 = k
    · have hj : ¬kv.1 = j := by rw [hk]; exact fun e => h e.symm
      simp only [updateP, List.map_cons, if_pos hk, lookupP, hj, if_false]
      exact ih
    · simp only [updateP, List.map_cons, if_neg hk, lookupP]
      by_cases hj : kv.1 = j
      · simp [hj]
      · simp only [hj, if_false]
        exact ih

theorem length_eraseIdx_of_lt {α : Type} (l : List α) (i : Nat)
    (h : i < l.length) : (l.eraseIdx i).length + 1 = l.length := by
  induction l generalizing i with
  | nil => simp at h
  | cons x xs ih =>
    cases i with
    | zero => simp [List.eraseIdx]
    | succ j =>
      have hj : j < xs.length := by simpa using h
      have := ih j hj
      simp [List.eraseIdx]
      omega

theorem shuffleGo_length (fuel : Nat) :
    ∀ (s : Nat) (l : List Card), l.length ≤ fuel →
      (shuffleGo fuel s l).length = l.length := by
  induction fuel with
  | zero => intro s l _; rfl
  | succ fuel ih =>
    intro s l h
    cases l with
    | nil => rfl
    | cons x xs =>
      have hlen : (s % (x :: xs).length) < (x :: xs).length :=
        Nat.mod_lt _ (by simp)
      have he := length_eraseIdx_of_lt (x :: xs) (s % (x :: xs).length) hlen
      have hf : ((x :: xs).eraseIdx (s % (x :: xs).length)).length ≤ fuel := by
        simp only [List.length_cons] at h he ⊢
        omega
      show ((x :: xs).getD (s % (x :: xs).length) x ::
          shuffleGo fuel (lcgNext s)
            ((x :: xs).eraseIdx (s % (x :: xs).length))).length =
        (x :: xs).length
      rw [List.length_cons, ih _ _ hf]
      simp only [List.length_cons] at he ⊢
      omega

theorem goShuffle_length (seed : Int) (l : List Card) :
    (goShuffle seed l).length = l.length :=
  shuffleGo_length l.length seed.natAbs l (Nat.le_refl _)

theorem GetStandardDeck_length : GetStandardDeck.length = 52 := by
  simp [GetStandardDeck]

/-- C1 (code_bug): chip conservation fails at ante posting.  In a started
hand with ante 10 and two seated players holding 100 chips each (total 200,
no committed bets), `betAnte` succeeds and leaves every balance and every
per-round bet untouched while appending an ante pot of 20 — afterwards
balances + pots total 220 and even balances + committed bets + pots total
220, so 20 chips were created out of nothing. -/
theorem c1_betAnte_mints_chips :
    totalChips c1State = 200 ∧ sumLastBets c1State.players = 0 ∧
    (betAnte c1State).map
        (fun r => (r.1, totalChips r.2, sumLastBets r.2.players,
                   sumBalances r.2.players)) =
      some (none, 220, 0, 200) := by
  decide

/-- C2 (code_bug): a player who folded during the hand is NOT excluded from
settlement.  From the end of the river round with player "b" folded and a
pot of 30 naming both players, `NewRound`'s common prefix clears every fold
flag (because the new round index is 4) before `PayMoney` runs, so the
applicant list built for the hand evaluator contains "b"; with the
evaluator's tie contract "b" is even credited 15 chips. -/
theorem c2_folded_player_enters_settlement :
    (lookupP c2State.players "b").map (·.fold) = some true ∧
    (newRoundPre c2State).currentRound = 4 ∧
    ((newRoundPre c2State).pots.map
        (fun pot =>
          (settleApplicants (newRoundPre c2State).players pot.applicants).map
            (fun l => l.map (·.1)))) = [some ["a", "b"]] ∧
    (NewRound c2State).map
        (fun r => (r.1, (lookupP r.2.players "b").map (·.balance),
                   r.2.currentRound)) =
      some (none, some 115, -1) := by
  decide

/-- C3 (code_bug): an all-in player blocks `checkReady`.  In a started game
where every player is non-folded and ready but player "b" has balance 0,
`checkReady` returns false, so the round can never advance — the claim says
it must return true. -/
theorem c3_allin_blocks_round_advancement :
    c3State.gameStarted = true ∧
    c3State.players.all (fun kv => kv.2.fold || kv.2.ready) = true ∧
    checkReady c3State = false := by
  decide

/-- C4 (code_bug): the `CantCheck` error is silently swallowed.  With table
bet 10 and player "a" to act, `handleCheck` itself reports `CantCheck`, but
`MakeMove` discards that result: it returns no error to the caller, marks
"a" ready, and advances the turn to seat 1. -/
theorem c4_cantCheck_error_swallowed :
    c4State.currentBet = 10 ∧
    (handleCheck c4State "a").map (·.1) = some (some .cantCheck) ∧
    (MakeMove c4State "a" "check" 0).map
        (fun r => (r.1, (lookupP r.2.players "a").map (·.ready),
                   r.2.playerTurnInd)) =
      some (none, some true, 1) := by
  decide

/-- C5 counterexample: the heads-up scenario fails at the claim's call step.
After `StartGame` on two 100-chip players with small blind 5, ante 0 and
seed 42, the dealer is seat 1 ("b") and has posted the small blind 5, the
opponent "a" has posted the big blind 10, and the table bet is 10 — but the
first turn is `(dealer + 3) mod 2` = seat 0, the big blind, so the dealer's
call attempt is rejected with `NotYourTurn` instead of succeeding. -/
theorem c5_dealer_call_not_your_turn :
    (StartGame c5Init).map
        (fun r =>
          (r.2.playersOrder[r.2.dealerIndex]?,
           (lookupP r.2.players "b").map (·.lastBet),
           (lookupP r.2.players "a").map (·.lastBet))) =
      some (some "b", some 5, some 10) ∧
    (StartGame c5Init).map
        (fun r =>
          (r.2.currentBet, r.2.playerTurnInd,
           (MakeMove r.2 "b" "call" 0).map (·.1))) =
      some (10, 0, some (some .notYourTurn)) := by
  decide

/-- C5 amended: in the heads-up scenario the blinds and table bet are as
claimed, but the first to act is the opponent (the big blind), not the
dealer.  After the opponent's call (a zero-chip call) and then the dealer's
call, the dealer has been debited to 90, both players' last bets are 10
immediately after the dealer's call is applied, and the round then
auto-advances to the flop (round index 1, three community cards), the
advance resetting the per-round bets. -/
theorem c5_headsup_scenario_amended :
    (MakeMove c5m1 "a" "call" 0).map (·.1) = some none ∧
    (handleCall c5m2 "b").map
        (fun r => ((lookupP r.2.players "a").map (·.lastBet),
                   (lookupP r.2.players "b").map (·.lastBet),
                   (lookupP r.2.players "b").map (·.balance))) =
      some (some 10, some 10, some 90) ∧
    (MakeMove c5m2 "b" "call" 0).map
        (fun r => (r.1, r.2.currentRound, r.2.communityCards.length)) =
      some (none, 1, 3) ∧
    (MakeMove c5m2 "b" "call" 0).map
        (fun r => ((lookupP r.2.players "b").map (·.balance),
                   (lookupP r.2.players "a").map (·.balance))) =
      some (some 90, some 90) := by
  decide

/-- C6 (code_bug): `AddPlayer`'s capacity check is off by one.  On a table
with `MaxPlayers = 2`, one seated player, an empty queue and no hand
running — one short of capacity, so the claim requires success — the guard
`MaxPlayers <= len(Players)+len(Query)+1` fires and the call is rejected
with `MaxPlayers`, leaving the table unchanged. -/
theorem c6_addPlayer_rejects_below_capacity :
    (c6State.players.length : Int) + (c6State.query.length : Int) + 1 =
      c6cfg.maxPlayers ∧
    AddPlayer c6cfg c6State { id := "b", balance := 100 } =
      (some .maxPlayers, c6State) := by
  decide

/-- C7 (code_bug): promotion never empties the queue.  Starting a hand with
seated player "a" and queued player "q", round 0 promotes "q" into the
seats (`PlayersOrder = [a, q]`) but "q" is still in `Query`, violating
disjointness; the next hand's promotion step then appends "q" to
`PlayersOrder` again, which ends up with three entries for two seated
players and "q" counted twice. -/
theorem c7_query_promotion_duplicates :
    (NewRound c7Start).map
        (fun r => ((lookupP r.2.query "q").isSome, r.2.playersOrder)) =
      some (true, ["a", "q"]) ∧
    (lookupP (enterPlayersFromQuery c7m1).query "q").isSome = true ∧
    (enterPlayersFromQuery c7m1).playersOrder = ["a", "q", "q"] ∧
    (enterPlayersFromQuery c7m1).players.length = 2 ∧
    (enterPlayersFromQuery c7m1).playersOrder.count "q" = 2 := by
  decide

/-- C8 (confirmed): postconditions of a valid raise.  For any started game,
any current-turn non-folded raiser `pid` whose `amount` exceeds twice the
table bet, exceeds the raiser's own last bet, is positive, and whose delta
`amount - lastBet` fits in the balance, `handleRaise` succeeds and leaves:
the raiser ready with `lastBet = amount` and balance debited by the delta,
the table bet equal to `amount`, and any other non-folded player `q` with
ready flag false. -/
theorem c8_raise_postconditions (m : TableMeta) (pid q : String)
    (p qp : Player) (amount : Int)
    (hstart : m.gameStarted = true)
    (hp : lookupP m.players pid = some p) (hpf : p.fold = false)
    (h1 : amount > m.currentBet * 2) (h2 : amount > p.lastBet)
    (h3 : amount > 0) (h4 : amount - p.lastBet ≤ p.balance)
    (hq : q ≠ pid) (hqp : lookupP m.players q = some qp)
    (hqf : qp.fold = false) :
    (handleRaise m pid amount).map
        (fun r => (r.1, r.2.currentBet, lookupP r.2.players pid,
                   (lookupP r.2.players q).map (·.ready))) =
      some (none, amount,
            some { p with ready := true, lastBet := amount,
                          balance := p.balance - (amount - p.lastBet) },
            some false) := by
  have hcond : ¬¬(amount > m.currentBet * 2 ∧ amount > p.lastBet ∧ amount > 0) :=
    not_not_intro ⟨h1, h2, h3⟩
  have hmoney : ¬(amount - p.lastBet > p.balance) := by omega
  simp only [handleRaise, hstart, Bool.not_true, Bool.false_eq_true, if_false,
    hp, Option.some_bind, hpf, if_neg hcond, if_neg hmoney,
    resetPlayersStatus]
  simp only [Option.map_some', Option.some.injEq, Prod.mk.injEq]
  refine ⟨trivial, trivial, ?_, ?_⟩
  · rw [lookupP_updateP_self, lookupP_updateP_self, lookupP_updateP_self,
      lookupP_map, hp]
    simp [resetOne, hpf]
  · rw [lookupP_updateP_ne _ _ _ _ hq, lookupP_updateP_ne _ _ _ _ hq,
      lookupP_updateP_ne _ _ _ _ hq, lookupP_map, hqp]
    simp [resetOne, hqf]

/-- Witness for C8: the spec's own raise scenario — table bet 10, raiser
"a" with balance 100 and last bet 0 raises to 25 while "b" (non-folded,
ready) looks on; afterwards "a" is ready with last bet 25 and balance 75,
the table bet is 25, and "b"'s ready flag has been cleared. -/
theorem c8_raise_postconditions_witness :
    (handleRaise w8State "a" 25).map
        (fun r => (r.1, r.2.currentBet, lookupP r.2.players "a",
                   (lookupP r.2.players "b").map (·.ready))) =
      some (none, 25,
            some { id := "a", balance := 75, hand := none, fold := false,
                   ready := true, lastBet := 25 },
            some false) := by
  have h := c8_raise_postconditions w8State "a" "b"
    { id := "a", balance := 100 }
    { id := "b", balance := 90, ready := true, lastBet := 10 } 25
    rfl rfl rfl (by decide) (by decide) (by decide) (by decide)
    (by decide) rfl rfl
  simpa using h

/-- C9 (confirmed): `drawCard` is all-or-nothing.  For every table state
and every requested count `n`, either at least `n` cards remain and the
call returns exactly the first `n` cards in order (removing them, so that
the returned cards followed by the remaining deck recompose the original
deck), or fewer than `n` remain and it returns no cards, the
`NotEnoughCards` error, and a completely unchanged table — never a shorter
draw. -/
theorem c9_drawCard_all_or_nothing (m : TableMeta) (n : Nat) :
    (m.deck.length < n ∧
      drawCard m n = ((([] : List Card), some HoldemError.notEnoughCards), m)) ∨
    (n ≤ m.deck.length ∧
      (drawCard m n).1 = (m.deck.take n, none) ∧
      (drawCard m n).2 = { m with deck := m.deck.drop n } ∧
      ((drawCard m n).1.1).length = n ∧
      (drawCard m n).1.1 ++ (drawCard m n).2.deck = m.deck) := by
  by_cases h : m.deck.length < n
  · exact Or.inl ⟨h, by simp [drawCard, h]⟩
  · refine Or.inr ⟨Nat.le_of_not_lt h, ?_, ?_, ?_, ?_⟩
    · simp [drawCard, h]
    · simp [drawCard, h]
    · simp [drawCard, h, List.length_take, Nat.min_eq_left (Nat.le_of_not_lt h)]
    · simp [drawCard, h, List.take_append_drop]

/-- C10 (confirmed): `refreshDeck` is total exactly for non-zero seeds.
For every table state, `refreshDeck` fails (the nil generator dereference,
modelled as `none`) if and only if the seed is zero; for every non-zero
seed the shuffle completes and yields a full 52-card deck. -/
theorem c10_refreshDeck_seed_guard (m : TableMeta) :
    (refreshDeck m = none ↔ m.seed = 0) ∧
    ((refreshDeck m).map (fun m2 => m2.deck.length) =
      if m.seed = 0 then none else some 52) := by
  by_cases h : m.seed = 0
  · constructor
    · simp [refreshDeck, h]
    · simp [refreshDeck, h]
  · constructor
    · simp [refreshDeck, h]
    · simp [refreshDeck, h, goShuffle_length, GetStandardDeck_length]

end Holdem
